import Mathlib

/-!
Shallow embedding of the concurrency/resource-management core of the
EDEAIBridge repository (request limiter, CLI session registry, conversation
session store), together with theorems settling the specification claims.

Machine integers of the source are modelled as `Int` (Python integers are
unbounded), timestamps and percentages as `ℚ` (datetimes carry sub-second
precision), and the fallible memory sample as `Option ℚ`.
-/

/-! ## Admission Controller (`src/src/request_limiter.py`, class `RequestLimiter`) -/

/-- State of `RequestLimiter`: the configuration fields set in `__init__`
together with the mutable counters.  `active_requests` is an `Int` because the
never-negative invariant is a claim to be proved, not assumed. -/
structure RequestLimiter where
  max_concurrent : Int
  memory_threshold : ℚ
  active_requests : Int
  total_requests : Int
  rejected_requests : Int
  deriving Repr, DecidableEq

/-- `RequestLimiter.__init__`: counters start at zero. -/
def RequestLimiter.mkInit (max_concurrent : Int) (memory_threshold : ℚ) : RequestLimiter :=
  { max_concurrent := max_concurrent
    memory_threshold := memory_threshold
    active_requests := 0
    total_requests := 0
    rejected_requests := 0 }

/-- The rejection reason built by `can_accept_request` when the concurrency
ceiling is reached: `f"Max concurrent requests reached ({active}/{max})"`. -/
def concurrencyReason (l : RequestLimiter) : String :=
  "Max concurrent requests reached (" ++ toString l.active_requests ++ "/"
    ++ toString l.max_concurrent ++ ")"

/-- Rendering of a percentage with one decimal digit, standing in for Python's
`f"{percent:.1f}"` inside the memory rejection reason (no claim inspects this
string). -/
def formatPercent1 (q : ℚ) : String :=
  let n : Int := Int.floor (q * 10 + 1 / 2)
  toString (n / 10) ++ "." ++ toString (n % 10)

/-- The rejection reason built by `can_accept_request` when memory utilization
is at or above the threshold. -/
def memoryReason (l : RequestLimiter) (percent : ℚ) : String :=
  "Memory threshold exceeded (" ++ formatPercent1 percent ++ "% > "
    ++ toString l.memory_threshold ++ "%)"

/-- A failure of `psutil.virtual_memory()` inside `can_accept_request`; the
source has no handler for it, so it escapes the call. -/
inductive MemReadError where
  | memReadFailed
  deriving Repr, DecidableEq

/-- `RequestLimiter.can_accept_request`.  The concurrency ceiling is checked
first; only then is memory sampled (`memSample = none` models a failing
`psutil.virtual_memory()`, which the source does not catch, hence `.error`). -/
def RequestLimiter.can_accept_request (l : RequestLimiter) (memSample : Option ℚ) :
    Except MemReadError (Bool × Option String) :=
  if l.active_requests ≥ l.max_concurrent then
    .ok (false, some (concurrencyReason l))
  else
    match memSample with
    | none => .error .memReadFailed
    | some percent =>
      if percent ≥ l.memory_threshold then
        .ok (false, some (memoryReason l percent))
      else
        .ok (true, none)

/-- `RequestLimiter.acquire`: unconditionally increments the active and total
counters. -/
def RequestLimiter.acquire (l : RequestLimiter) : RequestLimiter :=
  { l with
    active_requests := l.active_requests + 1
    total_requests := l.total_requests + 1 }

/-- `RequestLimiter.release`: decrements the active counter, clamped at zero
(`max(0, self.active_requests - 1)`). -/
def RequestLimiter.release (l : RequestLimiter) : RequestLimiter :=
  { l with active_requests := max 0 (l.active_requests - 1) }

/-- One step of the admission protocol at a call site.  `accept` is the
accept-then-acquire critical section prescribed by the spec (§4.1): `acquire`
runs only when `can_accept_request` returned allowed; a denial or a memory-read
error leaves the counters untouched.  `release` is an unconditional release. -/
inductive AdmissionStep where
  | accept (memSample : Option ℚ)
  | release
  deriving Repr

/-- Effect of one admission-protocol step on the limiter state. -/
def admissionStep (l : RequestLimiter) : AdmissionStep → RequestLimiter
  | .accept memSample =>
    match l.can_accept_request memSample with
    | .ok (true, _) => l.acquire
    | _ => l
  | .release => l.release

/-- Run a sequence of admission-protocol steps from a given state. -/
def runAdmission (l : RequestLimiter) (steps : List AdmissionStep) : RequestLimiter :=
  steps.foldl admissionStep l

/-- Membership test for the denial outcome of `can_accept_request`, used to
state claims about its shape. -/
def isDenial : Except MemReadError (Bool × Option String) → Bool
  | .ok (false, _) => true
  | _ => false

theorem admissionStep_max_concurrent (l : RequestLimiter) (s : AdmissionStep) :
    (admissionStep l s).max_concurrent = l.max_concurrent := by
  cases s with
  | accept memSample =>
    simp only [admissionStep]
    rcases h : l.can_accept_request memSample with e | ⟨b, r⟩
    · simp
    · cases b <;> simp [RequestLimiter.acquire]
  | release => simp [admissionStep, RequestLimiter.release]

theorem admissionStep_bounds (l : RequestLimiter) (s : AdmissionStep)
    (h0 : 0 ≤ l.active_requests) (h1 : l.active_requests ≤ l.max_concurrent) :
    0 ≤ (admissionStep l s).active_requests ∧
      (admissionStep l s).active_requests ≤ l.max_concurrent := by
  cases s with
  | accept memSample =>
    simp only [admissionStep]
    rcases h : l.can_accept_request memSample with e | ⟨b, r⟩
    · exact ⟨h0, h1⟩
    · cases b with
      | false => exact ⟨h0, h1⟩
      | true =>
        simp only [RequestLimiter.acquire]
        unfold RequestLimiter.can_accept_request at h
        by_cases hc : l.active_requests ≥ l.max_concurrent
        · simp [hc] at h
        · push_neg at hc
          constructor
          · omega
          · omega
  | release =>
    simp only [admissionStep, RequestLimiter.release]
    constructor
    · exact le_max_left 0 _
    · have : max 0 (l.active_requests - 1) ≤ l.active_requests := by omega
      omega

theorem runAdmission_bounds (l : RequestLimiter) (steps : List AdmissionStep)
    (h0 : 0 ≤ l.active_requests) (h1 : l.active_requests ≤ l.max_concurrent) :
    0 ≤ (runAdmission l steps).active_requests ∧
      (runAdmission l steps).active_requests ≤ (runAdmission l steps).max_concurrent := by
  induction steps generalizing l with
  | nil => exact ⟨h0, h1⟩
  | cons s rest ih =>
    have hb := admissionStep_bounds l s h0 h1
    have hm := admissionStep_max_concurrent l s
    exact ih (admissionStep l s) hb.1 (hm ▸ hb.2)

/-- C1: starting from a freshly initialized limiter with maximum concurrency
`M ≥ 0`, every sequence of admission-protocol steps (accept-then-acquire
critical sections and releases) keeps the active request count within
`[0, M]`: it never goes negative and never exceeds the configured maximum as
an effect of admission. -/
theorem claim_C1_admission_bounds (M : Int) (θ : ℚ) (steps : List AdmissionStep)
    (hM : 0 ≤ M) :
    0 ≤ (runAdmission (RequestLimiter.mkInit M θ) steps).active_requests ∧
      (runAdmission (RequestLimiter.mkInit M θ) steps).active_requests ≤ M := by
  have h := runAdmission_bounds (RequestLimiter.mkInit M θ) steps (by simp [RequestLimiter.mkInit])
    (by simpa [RequestLimiter.mkInit] using hM)
  have hm : (runAdmission (RequestLimiter.mkInit M θ) steps).max_concurrent = M := by
    have : ∀ (l : RequestLimiter) (ss : List AdmissionStep),
        (runAdmission l ss).max_concurrent = l.max_concurrent := by
      intro l ss
      induction ss generalizing l with
      | nil => rfl
      | cons s rest ih =>
        simpa [runAdmission, admissionStep_max_concurrent] using
          (ih (admissionStep l s)).trans (admissionStep_max_concurrent l s)
    simp [this, RequestLimiter.mkInit]
  exact ⟨h.1, le_of_le_of_eq h.2 hm⟩

/-- Witness for C1 at `M = 3`, the default configuration, on a concrete step
sequence containing admissions (with and without memory pressure) and
releases. -/
theorem claim_C1_admission_bounds_witness :
    (0 : Int) ≤ 3 ∧
      (0 ≤ (runAdmission (RequestLimiter.mkInit 3 90)
          [.accept (some 50), .accept (some 50), .release, .accept (some 95),
            .accept none, .accept (some 50), .accept (some 50), .accept (some 50),
            .release]).active_requests ∧
        (runAdmission (RequestLimiter.mkInit 3 90)
          [.accept (some 50), .accept (some 50), .release, .accept (some 95),
            .accept none, .accept (some 50), .accept (some 50), .accept (some 50),
            .release]).active_requests ≤ 3) :=
  ⟨by decide,
    claim_C1_admission_bounds 3 90
      [.accept (some 50), .accept (some 50), .release, .accept (some 95),
        .accept none, .accept (some 50), .accept (some 50), .accept (some 50),
        .release] (by decide)⟩

/-- C2: when the active count is at least the configured maximum,
`can_accept_request` denies with the concurrency reason naming the current and
maximum counts, whatever the memory sample says (so the concurrency reason
takes precedence even when the memory threshold is also exceeded); for
`max = 3`, `active = 3` the reason is exactly
"Max concurrent requests reached (3/3)"; when active is below the maximum and
memory utilization is below the threshold, the call returns `(true, none)`. -/
theorem claim_C2_can_accept (l : RequestLimiter) (memSample : Option ℚ) (p : ℚ) :
    (l.max_concurrent ≤ l.active_requests →
      l.can_accept_request memSample = .ok (false, some (concurrencyReason l))) ∧
    concurrencyReason
        { max_concurrent := 3, memory_threshold := 90, active_requests := 3,
          total_requests := 3, rejected_requests := 0 }
      = "Max concurrent requests reached (3/3)" ∧
    (l.active_requests < l.max_concurrent → p < l.memory_threshold →
      l.can_accept_request (some p) = .ok (true, none)) := by
  refine ⟨?_, by rfl, ?_⟩
  · intro h
    unfold RequestLimiter.can_accept_request
    simp [ge_iff_le, h]
  · intro hactive hmem
    unfold RequestLimiter.can_accept_request
    rw [if_neg (by omega)]
    simp [not_le.mpr hmem]

/-- Witness for C2 at the spec's concrete scenario: `max = 3`, `active = 3`
denies with the exact concurrency string even while memory is at 95% (above
the 90% threshold), and `active = 2` with memory at 50% accepts. -/
theorem claim_C2_can_accept_witness :
    ({ max_concurrent := 3, memory_threshold := 90, active_requests := 3,
        total_requests := 3, rejected_requests := 0 } : RequestLimiter).can_accept_request
        (some 95)
      = .ok (false, some "Max concurrent requests reached (3/3)") ∧
    ({ max_concurrent := 3, memory_threshold := 90, active_requests := 2,
        total_requests := 4, rejected_requests := 0 } : RequestLimiter).can_accept_request
        (some 50)
      = .ok (true, none) := by
  constructor
  · have h := (claim_C2_can_accept
      { max_concurrent := 3, memory_threshold := 90, active_requests := 3,
        total_requests := 3, rejected_requests := 0 } (some 95) 50).1 (by decide)
    rw [h]
    rfl
  · exact (claim_C2_can_accept
      { max_concurrent := 3, memory_threshold := 90, active_requests := 2,
        total_requests := 4, rejected_requests := 0 } (some 50) 50).2.2
      (by decide) (by decide)

/-- C3 counterexample: on a fresh limiter (active `0 < max 3`), a failing
memory read makes `can_accept_request` escape with the error rather than
return a denial pair, so the claim "the call returns a denial" is false at
this input. -/
theorem claim_C3_counterexample :
    isDenial ((RequestLimiter.mkInit 3 90).can_accept_request none) = false ∧
      (RequestLimiter.mkInit 3 90).can_accept_request none = .error .memReadFailed := by
  constructor <;> rfl

/-- C3 amended: when reading memory statistics fails, `can_accept_request`
never allows the request — it either returns the concurrency denial (when the
ceiling is already reached, so memory is never sampled) or propagates the
memory-read failure; it never returns an acceptance. -/
theorem claim_C3_mem_failure_never_allows (l : RequestLimiter) :
    l.can_accept_request none = .ok (false, some (concurrencyReason l)) ∨
      l.can_accept_request none = .error .memReadFailed := by
  unfold RequestLimiter.can_accept_request
  by_cases h : l.active_requests ≥ l.max_concurrent
  · left
    simp [h]
  · right
    simp [h]

/-! ## Execution Session Registry (`src/src/cli_session_manager.py`) -/

/-- State of a `CLISession`.  The `asyncio.Event` cancellation token is
modelled by whether it has been set; the opaque `asyncio.Task` handle carries
no state relevant to the claims and is omitted. -/
structure CLISession where
  cli_session_id : String
  prompt : String
  started_at : ℚ
  model : Option String
  status : String
  cancellation_set : Bool
  deriving Repr, DecidableEq

/-- `CLISession.cancel`: sets the cancellation token and the status. -/
def CLISession.cancel (s : CLISession) : CLISession :=
  { s with cancellation_set := true, status := "cancelled" }

/-- The terminal statuses listed in `cleanup_old_sessions`. -/
def terminalStatuses : List String := ["completed", "cancelled", "failed"]

/-- State of `CLISessionManager`: the `sessions` dict as an association list
(keys are unique in a Python dict; theorems that need that carry a `Nodup`
hypothesis on the keys). -/
structure CLISessionManager where
  sessions : List (String × CLISession)
  deriving Repr, DecidableEq

/-- `self.sessions.get(cli_session_id)`. -/
def lookupSession (m : CLISessionManager) (id : String) : Option CLISession :=
  (m.sessions.find? (fun p => p.1 == id)).map Prod.snd

/-- In-place mutation of the session stored under `id`, as the Python methods
perform through the shared object reference. -/
def updateSession (ss : List (String × CLISession)) (id : String)
    (f : CLISession → CLISession) : List (String × CLISession) :=
  ss.map (fun p => if p.1 == id then (p.1, f p.2) else p)

/-- `CLISessionManager.cancel_session`: `False` for an unknown id or a
non-running status; otherwise signals cancellation (token + status) and
returns `True`. -/
def CLISessionManager.cancel_session (m : CLISessionManager) (id : String) :
    Bool × CLISessionManager :=
  match lookupSession m id with
  | none => (false, m)
  | some s =>
    if s.status == "running" then
      (true, ⟨updateSession m.sessions id CLISession.cancel⟩)
    else
      (false, m)

/-- `CLISessionManager.complete_session`: if the id is known, overwrite the
status unconditionally; otherwise do nothing. -/
def CLISessionManager.complete_session (m : CLISessionManager) (id status : String) :
    CLISessionManager :=
  match lookupSession m id with
  | none => m
  | some _ => ⟨updateSession m.sessions id (fun s => { s with status := status })⟩

/-- The removal condition of `cleanup_old_sessions`:
`session.status in ["completed", "cancelled", "failed"] and age_hours > max_age_hours`
with `age_hours = (now - started_at).total_seconds() / 3600`. -/
def oldTerminal (now max_age_hours : ℚ) (s : CLISession) : Bool :=
  terminalStatuses.contains s.status && decide ((now - s.started_at) / 3600 > max_age_hours)

/-- `del self.sessions[session_id]`. -/
def eraseKey (ss : List (String × CLISession)) (id : String) :
    List (String × CLISession) :=
  ss.filter (fun p => !(p.1 == id))

/-- `CLISessionManager.cleanup_old_sessions`: first collects the ids to
remove, then deletes them one by one, and returns how many were collected. -/
def CLISessionManager.cleanup_old_sessions (m : CLISessionManager)
    (max_age_hours now : ℚ) : Nat × CLISessionManager :=
  (((m.sessions.filter (fun p => oldTerminal now max_age_hours p.2)).map Prod.fst).length,
    ⟨((m.sessions.filter (fun p => oldTerminal now max_age_hours p.2)).map Prod.fst).foldl
      eraseKey m.sessions⟩)

theorem foldl_eraseKey (ids : List String) (ss : List (String × CLISession)) :
    ids.foldl eraseKey ss = ss.filter (fun p => !(ids.contains p.1)) := by
  induction ids generalizing ss with
  | nil => simp [List.contains]
  | cons id rest ih =>
    simp only [List.foldl_cons, ih, eraseKey, List.filter_filter]
    apply List.filter_congr
    intro p _
    simp only [List.contains_cons, Bool.not_or, Bool.and_comm]

theorem eq_of_mem_of_nodup_keys (ss : List (String × CLISession))
    (hnd : (ss.map Prod.fst).Nodup) (p q : String × CLISession)
    (hp : p ∈ ss) (hq : q ∈ ss) (h : p.1 = q.1) : p = q := by
  induction ss with
  | nil => cases hp
  | cons r ts ih =>
    simp only [List.map_cons, List.nodup_cons] at hnd
    rcases List.mem_cons.mp hp with hp1 | hp2 <;>
      rcases List.mem_cons.mp hq with hq1 | hq2
    · exact hp1.trans hq1.symm
    · exact absurd (h ▸ (List.mem_map_of_mem Prod.fst hq2)) (hp1 ▸ hnd.1)
    · exact absurd (h ▸ (List.mem_map_of_mem Prod.fst hp2)) (by rw [hq1]; exact hnd.1)
    · exact ih hnd.2 hp2 hq2

theorem contains_removed_keys (ss : List (String × CLISession))
    (hnd : (ss.map Prod.fst).Nodup) (pred : CLISession → Bool)
    (p : String × CLISession) (hp : p ∈ ss) :
    ((ss.filter (fun q => pred q.2)).map Prod.fst).contains p.1 = pred p.2 := by
  cases hpred : pred p.2 with
  | true =>
    have hmem : p.1 ∈ (ss.filter (fun q => pred q.2)).map Prod.fst :=
      List.mem_map_of_mem Prod.fst (List.mem_filter.mpr ⟨hp, hpred⟩)
    exact List.contains_iff_exists_mem_beq.mpr ⟨p.1, hmem, by simp⟩
  | false =>
    rw [Bool.eq_false_iff]
    intro hcontains
    rw [List.contains_iff_exists_mem_beq] at hcontains
    obtain ⟨k, hk, hbeq⟩ := hcontains
    obtain ⟨q, hqmem, hqeq⟩ := List.mem_map.mp hk
    have hq := List.mem_filter.mp hqmem
    have hk1 : p.1 = q.1 := by
      have hk2 := (beq_iff_eq ..).mp hbeq
      rw [hk2, hqeq]
    have hpq : p = q := eq_of_mem_of_nodup_keys ss hnd p q hp hq.1 hk1
    rw [hpq, hq.2] at hpred
    cases hpred

theorem find?_updateSession (ss : List (String × CLISession)) (id : String)
    (f : CLISession → CLISession) :
    (updateSession ss id f).find? (fun p => p.1 == id)
      = (ss.find? (fun p => p.1 == id)).map (fun p => (p.1, f p.2)) := by
  induction ss with
  | nil => rfl
  | cons q qs ih =>
    simp only [updateSession, List.map_cons]
    cases hq : (q.1 == id) with
    | true => simp [List.find?_cons, hq]
    | false => simpa [List.find?_cons, hq, updateSession] using ih

theorem lookupSession_update (m : CLISessionManager) (id : String)
    (f : CLISession → CLISession) (s : CLISession) (h : lookupSession m id = some s) :
    lookupSession ⟨updateSession m.sessions id f⟩ id = some (f s) := by
  unfold lookupSession at h ⊢
  rw [find?_updateSession]
  obtain ⟨p, hp, hps⟩ := Option.map_eq_some'.mp h
  rw [hp]
  simp [hps]

theorem cancel_session_eq (m : CLISessionManager) (id : String) (s : CLISession)
    (hs : lookupSession m id = some s) :
    m.cancel_session id =
      if s.status == "running" then
        (true, ⟨updateSession m.sessions id CLISession.cancel⟩)
      else (false, m) := by
  unfold CLISessionManager.cancel_session
  rw [hs]

theorem complete_session_eq (m : CLISessionManager) (id st : String) (s : CLISession)
    (hs : lookupSession m id = some s) :
    m.complete_session id st
      = ⟨updateSession m.sessions id (fun t => { t with status := st })⟩ := by
  unfold CLISessionManager.complete_session
  rw [hs]

theorem status_ne_running_of_terminal (s : CLISession)
    (hterm : s.status ∈ terminalStatuses) : (s.status == "running") = false := by
  have h : s.status = "completed" ∨ s.status = "cancelled" ∨ s.status = "failed" := by
    simpa [terminalStatuses] using hterm
  rcases h with h | h | h <;> simp [h]

/-- C4 counterexample: a session whose status is terminal ("completed" is in
the terminal set) is changed to "failed" by a second `complete_session` call,
so "once the status is terminal no registry operation changes it" is false. -/
theorem claim_C4_counterexample :
    "completed" ∈ terminalStatuses ∧
    (lookupSession
        (⟨[("s1", ⟨"s1", "task", 0, none, "completed", false⟩)]⟩ : CLISessionManager)
        "s1").map CLISession.status = some "completed" ∧
    (lookupSession
        ((⟨[("s1", ⟨"s1", "task", 0, none, "completed", false⟩)]⟩ :
          CLISessionManager).complete_session "s1" "failed")
        "s1").map CLISession.status = some "failed" := by
  refine ⟨by decide, rfl, rfl⟩

/-- C4 amended: status transitions only move forward from running under
`cancel_session` (a running session becomes cancelled, a terminal session is
left untouched), and `cleanup_old_sessions` never alters a stored session
(every surviving entry is an entry of the original registry); but
`complete_session` overwrites the status unconditionally (last write wins), so
a repeated call with a different status does change a terminal status. -/
theorem claim_C4_amended_transitions (m : CLISessionManager) (id st : String)
    (s : CLISession) :
    (lookupSession m id = some s → s.status = "running" →
      lookupSession (m.cancel_session id).2 id = some s.cancel ∧
        s.cancel.status = "cancelled") ∧
    (lookupSession m id = some s → s.status ∈ terminalStatuses →
      (m.cancel_session id).2 = m) ∧
    (∀ (max_age_hours now : ℚ), ∀ p ∈ (m.cleanup_old_sessions max_age_hours now).2.sessions,
      p ∈ m.sessions) ∧
    (lookupSession m id = some s →
      lookupSession (m.complete_session id st) id = some { s with status := st }) := by
  refine ⟨?_, ?_, ?_, ?_⟩
  · intro hs hrun
    have hb : (s.status == "running") = true := by simp [hrun]
    rw [cancel_session_eq m id s hs, if_pos hb]
    exact ⟨lookupSession_update m id CLISession.cancel s hs, rfl⟩
  · intro hs hterm
    rw [cancel_session_eq m id s hs,
      if_neg (by simp [status_ne_running_of_terminal s hterm])]
  · intro max_age_hours now p hp
    unfold CLISessionManager.cleanup_old_sessions at hp
    rw [foldl_eraseKey] at hp
    exact (List.mem_filter.mp hp).1
  · intro hs
    rw [complete_session_eq m id st s hs]
    exact lookupSession_update m id (fun t => { t with status := st }) s hs

/-- Witness for C4's amended claim on a concrete running session: cancelling
it yields status "cancelled", and `complete_session` overwrites to "failed". -/
theorem claim_C4_amended_transitions_witness :
    lookupSession
        ((⟨[("r", ⟨"r", "task", 0, none, "running", false⟩)]⟩ :
          CLISessionManager).cancel_session "r").2 "r"
      = some (CLISession.cancel ⟨"r", "task", 0, none, "running", false⟩) ∧
    lookupSession
        ((⟨[("r", ⟨"r", "task", 0, none, "running", false⟩)]⟩ :
          CLISessionManager).complete_session "r" "failed") "r"
      = some ⟨"r", "task", 0, none, "failed", false⟩ :=
  ⟨((claim_C4_amended_transitions
      ⟨[("r", ⟨"r", "task", 0, none, "running", false⟩)]⟩ "r" "failed"
      ⟨"r", "task", 0, none, "running", false⟩).1 rfl rfl).1,
    (claim_C4_amended_transitions
      ⟨[("r", ⟨"r", "task", 0, none, "running", false⟩)]⟩ "r" "failed"
      ⟨"r", "task", 0, none, "running", false⟩).2.2.2 rfl⟩

/-- C5: `cancel_session` on an unknown id, or on a session whose status is
terminal (completed, cancelled or failed), returns `false` and leaves the
registry exactly as it was; the operation is total (no error outcome exists in
its type). -/
theorem claim_C5_cancel_noop (m : CLISessionManager) (id : String) :
    (lookupSession m id = none → m.cancel_session id = (false, m)) ∧
    (∀ s, lookupSession m id = some s → s.status ∈ terminalStatuses →
      m.cancel_session id = (false, m)) := by
  constructor
  · intro h
    unfold CLISessionManager.cancel_session
    rw [h]
  · intro s hs hterm
    rw [cancel_session_eq m id s hs,
      if_neg (by simp [status_ne_running_of_terminal s hterm])]

/-- Witness for C5: a concrete registry with one completed session; cancelling
it and cancelling an unknown id both return `false` with the registry
unchanged. -/
theorem claim_C5_cancel_noop_witness :
    (⟨[("s1", ⟨"s1", "task", 0, none, "completed", false⟩)]⟩ :
        CLISessionManager).cancel_session "s1"
      = (false, ⟨[("s1", ⟨"s1", "task", 0, none, "completed", false⟩)]⟩) ∧
    (⟨[("s1", ⟨"s1", "task", 0, none, "completed", false⟩)]⟩ :
        CLISessionManager).cancel_session "zz"
      = (false, ⟨[("s1", ⟨"s1", "task", 0, none, "completed", false⟩)]⟩) :=
  ⟨(claim_C5_cancel_noop ⟨[("s1", ⟨"s1", "task", 0, none, "completed", false⟩)]⟩ "s1").2
      ⟨"s1", "task", 0, none, "completed", false⟩ rfl (by decide),
    (claim_C5_cancel_noop ⟨[("s1", ⟨"s1", "task", 0, none, "completed", false⟩)]⟩ "zz").1 rfl⟩

/-- C6: under the dict invariant (unique keys), `cleanup_old_sessions` removes
exactly the sessions whose status is terminal (completed, cancelled or failed)
and whose age in hours strictly exceeds the threshold, returns the number
removed, and never removes a session whose status is running regardless of its
age. -/
theorem claim_C6_cleanup (m : CLISessionManager) (max_age_hours now : ℚ)
    (hnd : (m.sessions.map Prod.fst).Nodup) :
    (m.cleanup_old_sessions max_age_hours now).2.sessions
        = m.sessions.filter (fun p => !(oldTerminal now max_age_hours p.2)) ∧
    (m.cleanup_old_sessions max_age_hours now).1
        = (m.sessions.filter (fun p => oldTerminal now max_age_hours p.2)).length ∧
    (∀ p ∈ m.sessions, p.2.status = "running" →
      p ∈ (m.cleanup_old_sessions max_age_hours now).2.sessions) := by
  have h1 : (m.cleanup_old_sessions max_age_hours now).2.sessions
      = m.sessions.filter (fun p => !(oldTerminal now max_age_hours p.2)) := by
    unfold CLISessionManager.cleanup_old_sessions
    rw [foldl_eraseKey]
    apply List.filter_congr
    intro p hp
    rw [contains_removed_keys m.sessions hnd (oldTerminal now max_age_hours) p hp]
  refine ⟨h1, ?_, ?_⟩
  · unfold CLISessionManager.cleanup_old_sessions
    rw [List.length_map]
  · intro p hp hrun
    rw [h1]
    refine List.mem_filter.mpr ⟨hp, ?_⟩
    have hc : terminalStatuses.contains p.2.status = false := by
      rw [hrun]
      decide
    have hfalse : oldTerminal now max_age_hours p.2 = false := by
      unfold oldTerminal
      rw [hc]
      rfl
    rw [hfalse]
    rfl

/-- Witness for C6 on a concrete registry at `now = 100000` seconds with a
24-hour threshold: an old completed session (age about 27.8h) is removed and
counted, while an equally old running session survives. -/
theorem claim_C6_cleanup_witness :
    ((⟨[("a", ⟨"a", "x", 0, none, "completed", false⟩),
        ("b", ⟨"b", "y", 0, none, "running", false⟩)]⟩ :
      CLISessionManager).cleanup_old_sessions 24 100000).1 = 1 ∧
    ((⟨[("a", ⟨"a", "x", 0, none, "completed", false⟩),
        ("b", ⟨"b", "y", 0, none, "running", false⟩)]⟩ :
      CLISessionManager).cleanup_old_sessions 24 100000).2.sessions
      = [("b", ⟨"b", "y", 0, none, "running", false⟩)] := by
  have h := claim_C6_cleanup
    ⟨[("a", ⟨"a", "x", 0, none, "completed", false⟩),
      ("b", ⟨"b", "y", 0, none, "running", false⟩)]⟩ 24 100000 (by decide)
  have hage : (24 : ℚ) < 100000 / 3600 := by norm_num
  have ha : oldTerminal 100000 24 ⟨"a", "x", 0, none, "completed", false⟩ = true := by
    unfold oldTerminal
    simp [terminalStatuses, hage]
  have hb : oldTerminal 100000 24 ⟨"b", "y", 0, none, "running", false⟩ = false := by
    unfold oldTerminal
    simp [terminalStatuses]
  refine ⟨?_, ?_⟩
  · rw [h.2.1]
    simp [ha, hb]
  · rw [h.1]
    simp [ha, hb]

/-! ## Conversation Session Store (`src/session_manager.py`)

The module itself is absent from the source tree; only its unit tests
(`src/tests/unit/test_session_manager.py`) ship.  The definitions below are
modelled from the spec (§4.3), with the unit tests fixing the behavior
wherever they are concrete. -/

/-- Modelled from the spec: a chat message as used by the missing
`src/models.py` `Message` (role + content), as exercised by the unit tests. -/
structure Message where
  role : String
  content : String
  deriving Repr, DecidableEq

/-- Modelled from the spec: the missing `src/session_manager.py` `Session`
dataclass — ordered message history, created-at, last-accessed and expires-at
timestamps, and the TTL used to slide expiration (spec §3
ConversationSession).  Timestamps are seconds as `ℚ`. -/
structure Session where
  session_id : String
  messages : List Message
  created_at : ℚ
  last_accessed : ℚ
  expires_at : ℚ
  ttl_seconds : ℚ
  deriving Repr, DecidableEq

/-- Modelled from the spec: creation of a fresh, empty session whose
expiration is creation time plus the TTL. -/
def Session.mkNew (id : String) (now ttl : ℚ) : Session :=
  { session_id := id
    messages := []
    created_at := now
    last_accessed := now
    expires_at := now + ttl
    ttl_seconds := ttl }

/-- Modelled from the spec: `Session.touch` — "every touch resets expiration
to now + TTL (sliding window)" and updates last-accessed
(`test_touch_updates_last_accessed`, `test_touch_extends_expiration`). -/
def Session.touch (s : Session) (now : ℚ) : Session :=
  { s with last_accessed := now, expires_at := now + s.ttl_seconds }

/-- Modelled from the spec: `Session.is_expired` — a session observed past its
expires-at is expired (`test_is_expired_true_for_old_session`). -/
def Session.is_expired (s : Session) (now : ℚ) : Bool :=
  decide (s.expires_at < now)

/-- Modelled from the spec: `Session.add_messages` appends in arrival order
and touches the session (`test_add_messages_touches_session`). -/
def Session.add_messages (s : Session) (msgs : List Message) (now : ℚ) : Session :=
  { s.touch now with messages := s.messages ++ msgs }

/-- Modelled from the spec: the missing `SessionManager` — a keyed store of
conversation sessions with a default TTL (`sessions` dict as an association
list, keys unique). -/
structure SessionManager where
  default_ttl_seconds : ℚ
  sessions : List (String × Session)
  deriving Repr, DecidableEq

/-- `self.sessions.get(session_id)`. -/
def lookupConv (m : SessionManager) (id : String) : Option Session :=
  (m.sessions.find? (fun p => p.1 == id)).map Prod.snd

/-- Store `v` under an already-present key `id` (in-place mutation of the
stored object in the Python original). -/
def setConv (ss : List (String × Session)) (id : String) (v : Session) :
    List (String × Session) :=
  ss.map (fun p => if p.1 == id then (p.1, v) else p)

/-- `del self.sessions[session_id]`. -/
def eraseConv (ss : List (String × Session)) (id : String) :
    List (String × Session) :=
  ss.filter (fun p => !(p.1 == id))

/-- Modelled from the spec: `get_or_create_session` — create a fresh empty
session when the key is absent or its session has expired (discarding the
expired content), otherwise touch and return the stored session (spec §4.3
GetOrCreate; `test_recreates_expired_session`). -/
def SessionManager.get_or_create_session (m : SessionManager) (id : String) (now : ℚ) :
    Session × SessionManager :=
  match lookupConv m id with
  | some s =>
    if s.is_expired now then
      (Session.mkNew id now m.default_ttl_seconds,
        { m with sessions := setConv m.sessions id (Session.mkNew id now m.default_ttl_seconds) })
    else
      (s.touch now, { m with sessions := setConv m.sessions id (s.touch now) })
  | none =>
    (Session.mkNew id now m.default_ttl_seconds,
      { m with sessions := m.sessions ++ [(id, Session.mkNew id now m.default_ttl_seconds)] })

/-- Modelled from the spec: `get_session` — absent for unknown keys; an
expired session is deleted as a side effect of the read and absent is
returned; an unexpired session is touched and returned (spec §4.3 Get;
`test_returns_none_for_expired_session`). -/
def SessionManager.get_session (m : SessionManager) (id : String) (now : ℚ) :
    Option Session × SessionManager :=
  match lookupConv m id with
  | none => (none, m)
  | some s =>
    if s.is_expired now then
      (none, { m with sessions := eraseConv m.sessions id })
    else
      (some (s.touch now), { m with sessions := setConv m.sessions id (s.touch now) })

/-- Modelled from the spec: `process_messages` — with no key, stateless mode:
return the input unchanged with no key and touch nothing; with a key, resolve
(creating if needed), append the new messages, and return the full accumulated
history together with the key (spec §4.3 ProcessMessages;
`test_stateless_mode_returns_messages_as_is`,
`test_session_mode_accumulates_messages`). -/
def SessionManager.process_messages (m : SessionManager) (msgs : List Message)
    (session_id : Option String) (now : ℚ) :
    (List Message × Option String) × SessionManager :=
  match session_id with
  | none => ((msgs, none), m)
  | some id =>
    ((((m.get_or_create_session id now).1.add_messages msgs now).messages, some id),
      { (m.get_or_create_session id now).2 with
        sessions := setConv (m.get_or_create_session id now).2.sessions id
          ((m.get_or_create_session id now).1.add_messages msgs now) })

/-- Modelled from the spec: `add_assistant_response` — a no-op in stateless
mode (it must not create a session as a side effect); in session mode appends
the single message to the resolved session (spec §4.3 AddAssistantResponse;
`test_does_nothing_in_stateless_mode`). -/
def SessionManager.add_assistant_response (m : SessionManager)
    (session_id : Option String) (msg : Message) (now : ℚ) : SessionManager :=
  match session_id with
  | none => m
  | some id =>
    { (m.get_or_create_session id now).2 with
      sessions := setConv (m.get_or_create_session id now).2.sessions id
        ((m.get_or_create_session id now).1.add_messages [msg] now) }

/-- The dictionary returned by `get_stats`. -/
structure SessionStats where
  active_sessions : Nat
  expired_sessions : Nat
  total_messages : Nat
  deriving Repr, DecidableEq

/-- Modelled from the spec: `get_stats` — counts of active (unexpired) and
expired-but-not-yet-purged sessions, plus a total message count.  The unit
test `test_returns_correct_stats` pins `total_messages` as the sum over ALL
stored sessions (two active with 1 and 2 messages plus one expired with 1
message gives 4), so the embedding sums over every stored session, expired
ones included. -/
def SessionManager.get_stats (m : SessionManager) (now : ℚ) : SessionStats :=
  { active_sessions := (m.sessions.filter (fun p => !(p.2.is_expired now))).length
    expired_sessions := (m.sessions.filter (fun p => p.2.is_expired now)).length
    total_messages := (m.sessions.map (fun p => p.2.messages.length)).sum }

theorem find?_setConv (ss : List (String × Session)) (id : String) (v : Session) :
    (setConv ss id v).find? (fun p => p.1 == id)
      = (ss.find? (fun p => p.1 == id)).map (fun p => (p.1, v)) := by
  induction ss with
  | nil => rfl
  | cons q qs ih =>
    simp only [setConv, List.map_cons]
    cases hq : (q.1 == id) with
    | true => simp [List.find?_cons, hq]
    | false => simpa [List.find?_cons, hq, setConv] using ih

theorem lookupConv_set (m : SessionManager) (id : String) (v s : Session)
    (h : lookupConv m id = some s) :
    lookupConv { m with sessions := setConv m.sessions id v } id = some v := by
  unfold lookupConv at h ⊢
  rw [find?_setConv]
  obtain ⟨p, hp, hps⟩ := Option.map_eq_some'.mp h
  rw [hp]
  rfl

theorem find?_eraseConv (ss : List (String × Session)) (id : String) :
    (eraseConv ss id).find? (fun p => p.1 == id) = none := by
  induction ss with
  | nil => rfl
  | cons q qs ih =>
    simp only [eraseConv, List.filter_cons] at ih ⊢
    cases hq : (q.1 == id) with
    | true =>
      simp only [hq, Bool.not_true, Bool.false_eq_true, if_false]
      exact ih
    | false =>
      simp only [hq, Bool.not_false, if_true, List.find?_cons]
      exact ih

theorem get_or_create_existing (m : SessionManager) (id : String) (s : Session)
    (now : ℚ) (hs : lookupConv m id = some s) (hexp : s.is_expired now = false) :
    m.get_or_create_session id now
      = (s.touch now, { m with sessions := setConv m.sessions id (s.touch now) }) := by
  have h2 : m.get_or_create_session id now
      = if s.is_expired now then
          (Session.mkNew id now m.default_ttl_seconds,
            { m with
              sessions := setConv m.sessions id (Session.mkNew id now m.default_ttl_seconds) })
        else
          (s.touch now, { m with sessions := setConv m.sessions id (s.touch now) }) := by
    unfold SessionManager.get_or_create_session
    rw [hs]
  rw [h2, if_neg (by simp [hexp])]

/-- C7: a touch at time `t` sets the session's expiration to exactly
`t + TTL` (and the last-accessed time to `t`); consequently, after
`get_or_create_session` resolves an existing unexpired session at time `t`,
the stored session's expiration is exactly `t` plus its TTL, for every `t`. -/
theorem claim_C7_ttl_sliding (s : Session) (t : ℚ) :
    ((s.touch t).expires_at = t + s.ttl_seconds ∧ (s.touch t).last_accessed = t) ∧
    (∀ (m : SessionManager) (id : String) (s0 : Session),
      lookupConv m id = some s0 → s0.is_expired t = false →
      lookupConv (m.get_or_create_session id t).2 id = some (s0.touch t) ∧
        (s0.touch t).expires_at = t + s0.ttl_seconds) := by
  refine ⟨⟨rfl, rfl⟩, ?_⟩
  intro m id s0 hs hexp
  rw [get_or_create_existing m id s0 t hs hexp]
  exact ⟨lookupConv_set m id (s0.touch t) s0 hs, rfl⟩

/-- Witness for C7: a store with one session of TTL 3600s created at time 0,
touched through `get_or_create_session` at `t = 100`; its stored expiration
becomes `100 + 3600`. -/
theorem claim_C7_ttl_sliding_witness :
    lookupConv ((⟨3600, [("k", ⟨"k", [], 0, 0, 3600, 3600⟩)]⟩ :
        SessionManager).get_or_create_session "k" 100).2 "k"
      = some (Session.touch ⟨"k", [], 0, 0, 3600, 3600⟩ 100) ∧
    (Session.touch ⟨"k", [], 0, 0, 3600, 3600⟩ 100).expires_at = 100 + 3600 :=
  (claim_C7_ttl_sliding ⟨"k", [], 0, 0, 3600, 3600⟩ 100).2
    ⟨3600, [("k", ⟨"k", [], 0, 0, 3600, 3600⟩)]⟩ "k"
    ⟨"k", [], 0, 0, 3600, 3600⟩ rfl (by decide)

/-- C8: in stateless mode (no conversation key), `process_messages` returns
the input messages unchanged together with no key and leaves the store
untouched, and `add_assistant_response` leaves the store untouched: no entry
is created, no session is touched. -/
theorem claim_C8_stateless (m : SessionManager) (msgs : List Message)
    (msg : Message) (t : ℚ) :
    m.process_messages msgs none t = ((msgs, none), m) ∧
    m.add_assistant_response none msg t = m :=
  ⟨rfl, rfl⟩

/-- C9: reading a key whose stored session has passed its expiration returns
absent and, as a side effect of that read, deletes the entry, so the key is no
longer present in the store afterward. -/
theorem claim_C9_lazy_expiry_on_get (m : SessionManager) (id : String)
    (s : Session) (t : ℚ) (hs : lookupConv m id = some s)
    (hexp : s.is_expired t = true) :
    (m.get_session id t).1 = none ∧ lookupConv (m.get_session id t).2 id = none := by
  have h2 : m.get_session id t
      = if s.is_expired t then
          (none, { m with sessions := eraseConv m.sessions id })
        else
          (some (s.touch t), { m with sessions := setConv m.sessions id (s.touch t) }) := by
    unfold SessionManager.get_session
    rw [hs]
  have heq : m.get_session id t = (none, { m with sessions := eraseConv m.sessions id }) := by
    rw [h2, if_pos hexp]
  rw [heq]
  refine ⟨rfl, ?_⟩
  show ((eraseConv m.sessions id).find? (fun p => p.1 == id)).map Prod.snd = none
  rw [find?_eraseConv]
  rfl

/-- Witness for C9: a session that expired at time 10, read at time 100:
`get_session` returns absent and the key is gone from the store. -/
theorem claim_C9_lazy_expiry_on_get_witness :
    ((⟨3600, [("k", ⟨"k", [], 0, 0, 10, 3600⟩)]⟩ :
        SessionManager).get_session "k" 100).1 = none ∧
    lookupConv ((⟨3600, [("k", ⟨"k", [], 0, 0, 10, 3600⟩)]⟩ :
        SessionManager).get_session "k" 100).2 "k" = none :=
  claim_C9_lazy_expiry_on_get ⟨3600, [("k", ⟨"k", [], 0, 0, 10, 3600⟩)]⟩ "k"
    ⟨"k", [], 0, 0, 10, 3600⟩ 100 rfl (by decide)

theorem sum_msgs_filter_split (ss : List (String × Session)) (now : ℚ) :
    ((ss.filter (fun p => !(p.2.is_expired now))).map (fun p => p.2.messages.length)).sum
      + ((ss.filter (fun p => p.2.is_expired now)).map (fun p => p.2.messages.length)).sum
      = (ss.map (fun p => p.2.messages.length)).sum := by
  induction ss with
  | nil => rfl
  | cons q qs ih =>
    by_cases hq : q.2.is_expired now = true
    · simp [List.filter_cons, hq]
      omega
    · rw [Bool.not_eq_true] at hq
      simp [List.filter_cons, hq]
      omega

/-- C10 counterexample: replaying the unit test `test_returns_correct_stats`
(two active sessions with 1 and 2 messages, one expired session with 1
message), `get_stats` reports a total of 4 messages while the sum over the
active (unexpired) sessions only is 3, so the claim that the total excludes
expired-but-not-yet-purged sessions is false. -/
theorem claim_C10_counterexample :
    ((⟨3600,
      [("session-1", ⟨"session-1", [⟨"user", "test1"⟩], 0, 0, 3600, 3600⟩),
        ("session-2",
          ⟨"session-2", [⟨"user", "test2"⟩, ⟨"assistant", "response2"⟩], 0, 0, 3600, 3600⟩),
        ("expired-session", ⟨"expired-session", [⟨"user", "old"⟩], 0, 0, 10, 3600⟩)]⟩ :
      SessionManager).get_stats 100).total_messages = 4 ∧
    (((⟨3600,
      [("session-1", ⟨"session-1", [⟨"user", "test1"⟩], 0, 0, 3600, 3600⟩),
        ("session-2",
          ⟨"session-2", [⟨"user", "test2"⟩, ⟨"assistant", "response2"⟩], 0, 0, 3600, 3600⟩),
        ("expired-session", ⟨"expired-session", [⟨"user", "old"⟩], 0, 0, 10, 3600⟩)]⟩ :
      SessionManager).sessions.filter
        (fun p => !(p.2.is_expired 100))).map (fun p => p.2.messages.length)).sum = 3 ∧
    (4 : Nat) ≠ 3 := by
  refine ⟨rfl, rfl, by decide⟩

/-- C10 amended: the total message count reported by `get_stats` equals the
sum of the message counts of the active (unexpired) sessions PLUS the message
counts of the expired-but-not-yet-purged sessions — i.e. the sum over every
stored session, not over the active ones only. -/
theorem claim_C10_amended_total_messages (m : SessionManager) (now : ℚ) :
    (m.get_stats now).total_messages
      = ((m.sessions.filter (fun p => !(p.2.is_expired now))).map
          (fun p => p.2.messages.length)).sum
        + ((m.sessions.filter (fun p => p.2.is_expired now)).map
          (fun p => p.2.messages.length)).sum :=
  (sum_msgs_filter_split m.sessions now).symm
